import Mathlib

/-!
Shallow embedding of the hybrid job–student matching service of the
repository (`BE/app/services/matching_service.py`), together with proofs
about its scoring pipeline.

Modelling conventions:
* Python floats are modelled as exact rationals (`ℚ`).
* Python strings are modelled as `List Char`; `str.lower()` maps
  `Char.toLower` over the list and the substring test `a in b` is
  `List.isInfixOf`.
* Nullable database columns are `Option` values; Python truthiness
  (`x or d`, `if x:`) is made explicit through the `pyOr*` helpers,
  since `None`, `0`, `""` and `[]` are all falsy.
* SQL queries are modelled as lookups in an explicit `DB` record whose
  fields hold the table rows the service reads.  The stage-1 pgvector
  retrieval query and the point-similarity queries are modelled as
  `DB.retrieve` / `DB.similarity` (the result of
  `ROUND((1.0 - (je.embedding <=> se.embedding))::numeric, 4)`), since
  embedding generation is an external collaborator.
* `round(x, 4)` is modelled as `round4` (rounding ties upward; the exact
  float tie-breaking of CPython is immaterial for every statement below,
  none of which sits on a tie).
-/

/-- Python strings, modelled as character lists. -/
abbrev Str := List Char

/-- Python `s.lower()`. -/
def strLower (s : Str) : Str := s.map Char.toLower

/-- Python substring test `needle in hay`. -/
def strIn (needle hay : Str) : Bool := decide (needle <:+: hay)

/-- Python `x or d` for an optional integer column: `None` and `0` are falsy. -/
def pyOrInt (x : Option Int) (d : Int) : Int :=
  match x with
  | none => d
  | some v => if v = 0 then d else v

/-- Python `x or d` for an optional numeric column: `None` and `0` are falsy. -/
def pyOrRat (x : Option ℚ) (d : ℚ) : ℚ :=
  match x with
  | none => d
  | some v => if v = 0 then d else v

/-- Python `x or []` for an optional list column (`None` and `[]` are falsy). -/
def pyOrList (x : Option (List α)) : List α := x.getD []

/-- Python `round(q, 4)`. -/
def round4 (q : ℚ) : ℚ := ((round (q * 10000) : ℤ) : ℚ) / 10000

/-! ### Module-level constants (`matching_service.py`, lines 27–39) -/

def COMPOSITE_THRESHOLD : ℚ := 0.65

def VECTOR_RETRIEVAL_THRESHOLD : ℚ := 0.45

def W_VECTOR : ℚ := 0.35

def W_SKILL : ℚ := 0.35

def W_EXPERIENCE : ℚ := 0.20

def W_PREFERENCE : ℚ := 0.10

def W_VECTOR_FALLBACK : ℚ := 0.55

def W_EXPERIENCE_FALLBACK : ℚ := 0.30

def W_PREFERENCE_FALLBACK : ℚ := 0.15

/-! ### `_compute_experience_fit` (lines 192–219) -/

/-- `MatchingService._compute_experience_fit`.  Note the Python idioms
`exp_min = job_exp_min or 0` and `exp_max = job_exp_max or (exp_min + 10)`:
a stated bound of `0` is falsy and falls back to the default. -/
def compute_experience_fit (student_exp : Int)
    (job_exp_min job_exp_max : Option Int) : ℚ :=
  if job_exp_min = none ∧ job_exp_max = none then 0.8
  else
    let exp_min : Int := pyOrInt job_exp_min 0
    let exp_max : Int := pyOrInt job_exp_max (exp_min + 10)
    if exp_min ≤ student_exp ∧ student_exp ≤ exp_max then 1
    else if student_exp < exp_min then
      max 0 (1 - ((exp_min - student_exp : Int) : ℚ) / ((max exp_min 1 : Int) : ℚ))
    else
      max 0.5 (1 - ((student_exp - exp_max : Int) : ℚ) / 10)

/-! ### `_compute_preference_fit` (lines 221–262) -/

/-- `MatchingService._compute_preference_fit`: builds the `scores` list
(remote, employment type, location) and returns the rounded mean. -/
def compute_preference_fit
    (student_pref_remote student_pref_job_types student_pref_locations :
      Option (List Str))
    (job_remote_type job_employment_type : Str)
    (job_location : Option Str) : ℚ :=
  let pref_remote := pyOrList student_pref_remote
  let d1 : ℚ :=
    if pref_remote ≠ [] then (if job_remote_type ∈ pref_remote then 1 else 0.3)
    else 0.7
  let pref_job_types := pyOrList student_pref_job_types
  let d2 : ℚ :=
    if pref_job_types ≠ [] then
      (if job_employment_type ∈ pref_job_types then 1 else 0.3)
    else 0.7
  let pref_locations := pyOrList student_pref_locations
  let d3 : ℚ :=
    match job_location with
    | some jl =>
      if pref_locations ≠ [] ∧ jl ≠ [] then
        let job_loc_lower := strLower jl
        if pref_locations.any (fun pl =>
            strIn (strLower pl) job_loc_lower
              || strIn job_loc_lower (strLower pl)) then 1
        else 0.5
      else 0.7
    | none => 0.7
  let scores : List ℚ := [d1, d2, d3]
  if scores ≠ [] then round4 (scores.sum / (scores.length : ℚ)) else 0.7

/-! ### `_compute_composite` (lines 264–288) -/

/-- `MatchingService._compute_composite`: weighted composite, with
redistributed weights when `skill_score` is `None`. -/
def compute_composite (vector_score : ℚ) (skill_score : Option ℚ)
    (experience_score preference_score : ℚ) : ℚ :=
  match skill_score with
  | some s =>
    round4 (W_VECTOR * vector_score + W_SKILL * s
      + W_EXPERIENCE * experience_score + W_PREFERENCE * preference_score)
  | none =>
    round4 (W_VECTOR_FALLBACK * vector_score
      + W_EXPERIENCE_FALLBACK * experience_score
      + W_PREFERENCE_FALLBACK * preference_score)

/-! ### `_compute_skill_overlap` (lines 50–190) -/

/-- A row of the student-skills query (lines 78–100), after the Python
defaults `row["proficiency_level"] or 0` and
`float(row["years_of_experience"] or 0)` have been applied while building
the `student_skills` dict. -/
structure StudentSkillRow where
  skill_id : Nat
  proficiency_level : Nat
  years_of_experience : ℚ
deriving DecidableEq

/-- A row of the job-skills query (lines 60–76) for one job. -/
structure JobSkillRow where
  skill_id : Nat
  skill_name : Str
  is_mandatory : Bool
  min_experience_years : Option ℚ
deriving DecidableEq

/-- Entry of the `matched_skills` list built by the overlap loop. -/
structure MatchedSkill where
  skill_name : Str
  is_mandatory : Bool
  proficiency_level : Nat
  years_of_experience : ℚ
deriving DecidableEq

/-- Entry of the `missing_skills` list built by the overlap loop. -/
structure MissingSkill where
  skill_name : Str
  is_mandatory : Bool
deriving DecidableEq

/-- Loop state of the `for rs in required_skills` loop (lines 126–162). -/
structure OverlapAcc where
  mandatory_total : Nat
  mandatory_matched : Nat
  optional_total : Nat
  optional_matched : Nat
  proficiency_bonus_count : Nat
  matched_skills : List MatchedSkill
  missing_skills : List MissingSkill
deriving DecidableEq

def overlapAcc0 : OverlapAcc := ⟨0, 0, 0, 0, 0, [], []⟩

/-- One iteration of the overlap loop.  `student_skills` is the dict built
from the student-skills query, keyed by `skill_id`. -/
def overlapStep (student_skills : Nat → Option StudentSkillRow)
    (acc : OverlapAcc) (rs : JobSkillRow) : OverlapAcc :=
  let min_exp := pyOrRat rs.min_experience_years 0
  let acc1 :=
    if rs.is_mandatory then { acc with mandatory_total := acc.mandatory_total + 1 }
    else { acc with optional_total := acc.optional_total + 1 }
  match student_skills rs.skill_id with
  | some ss =>
    let acc2 :=
      if rs.is_mandatory then
        { acc1 with mandatory_matched := acc1.mandatory_matched + 1 }
      else { acc1 with optional_matched := acc1.optional_matched + 1 }
    let acc3 :=
      if 4 ≤ ss.proficiency_level ∧ min_exp ≤ ss.years_of_experience then
        { acc2 with proficiency_bonus_count := acc2.proficiency_bonus_count + 1 }
      else acc2
    { acc3 with matched_skills := acc3.matched_skills ++
        [⟨rs.skill_name, rs.is_mandatory, ss.proficiency_level, ss.years_of_experience⟩] }
  | none =>
    { acc1 with missing_skills := acc1.missing_skills ++
        [⟨rs.skill_name, rs.is_mandatory⟩] }

/-- The per-job result dict of `_compute_skill_overlap` (lines 110–188). -/
structure SkillResult where
  skill_score : Option ℚ
  matched_skills : List MatchedSkill
  missing_skills : List MissingSkill
  total_skills : Nat
  mandatory_matched : Nat
  mandatory_total : Nat
  optional_matched : Nat
  optional_total : Nat
deriving DecidableEq

/-- Body of the `for jid in job_ids` loop of `_compute_skill_overlap`
(lines 107–188) for a single job: `required_skills` are the job-skill rows
of that job, `student_skills` the student's skill dict. -/
def compute_skill_overlap_one (required_skills : List JobSkillRow)
    (student_skills : Nat → Option StudentSkillRow) : SkillResult :=
  if required_skills = [] then
    ⟨none, [], [], 0, 0, 0, 0, 0⟩
  else
    let acc := required_skills.foldl (overlapStep student_skills) overlapAcc0
    let score : ℚ :=
      if 0 < acc.mandatory_total then
        0.7 * ((acc.mandatory_matched : ℚ) / (acc.mandatory_total : ℚ))
          + 0.3 * ((acc.optional_matched : ℚ) / ((max acc.optional_total 1 : ℕ) : ℚ))
          + 0.05 * (acc.proficiency_bonus_count : ℚ)
      else
        ((acc.mandatory_matched + acc.optional_matched : ℕ) : ℚ)
            / ((max (acc.mandatory_total + acc.optional_total) 1 : ℕ) : ℚ)
          + 0.05 * (acc.proficiency_bonus_count : ℚ)
    let clamped := min score 1
    ⟨some (round4 clamped), acc.matched_skills, acc.missing_skills,
      required_skills.length, acc.mandatory_matched, acc.mandatory_total,
      acc.optional_matched, acc.optional_total⟩

/-! ### Database model and the 3-stage pipeline
(`get_recommended_jobs_for_student`, lines 337–497) -/

/-- One row of the stage-1 vector retrieval query (lines 377–431): the job
columns used by stage 2, plus the rounded cosine similarity.  Display-only
columns (title, salary, company, …) are omitted. -/
structure Candidate where
  job_id : Nat
  vector_score : ℚ
  experience_min_years : Option Int
  experience_max_years : Option Int
  remote_type : Str
  employment_type : Str
  location : Option Str
deriving DecidableEq

/-- The students-table row read at lines 357–375. -/
structure StudentRow where
  experience_years : Option Int
  preferred_job_types : Option (List Str)
  preferred_remote_types : Option (List Str)
  preferred_locations : Option (List Str)
deriving DecidableEq

/-- The jobs-table columns read by `get_job_detail` and
`compute_composite_for_application`. -/
structure JobRow where
  experience_min_years : Option Int
  experience_max_years : Option Int
  remote_type : Str
  employment_type : Str
  location : Option Str
deriving DecidableEq

/-- Courses-table row (columns used by `_get_gap_courses`). -/
structure CourseRow where
  course_id : Nat
  title : Str
  slug : Str
  price : Option ℚ
  currency : Option Str
  thumbnail_url : Option Str
  is_published : Bool
deriving DecidableEq

/-- `course_skills` join-table row. -/
structure CourseSkillRow where
  course_id : Nat
  skill_id : Nat
  is_primary : Bool
deriving DecidableEq

/-- `skills` table row. -/
structure SkillRow where
  skill_id : Nat
  name : Str
deriving DecidableEq

/-- The database state the matching service reads.  Each field models one
of the SQL queries the service issues. -/
structure DB where
  /-- `SELECT 1 FROM student_embeddings WHERE student_id = :sid` -/
  has_student_embedding : Nat → Bool
  /-- students-table lookup -/
  students : Nat → Option StudentRow
  /-- the per-student skill dict built at lines 93–100, keyed by skill id -/
  student_skills : Nat → Nat → Option StudentSkillRow
  /-- job-skill requirement rows of one job (lines 60–76) -/
  job_skills : Nat → List JobSkillRow
  /-- stage-1 retrieval (lines 377–431): active jobs with similarity
  `≥ VECTOR_RETRIEVAL_THRESHOLD`, ordered by similarity descending -/
  retrieve : Nat → List Candidate
  /-- rounded point similarity of (student, job); `none` when either
  embedding is missing -/
  similarity : Nat → Nat → Option ℚ
  /-- jobs-table lookup -/
  jobs : Nat → Option JobRow
  /-- courses / course_skills / skills tables for `_get_gap_courses` -/
  courses : List CourseRow
  course_skills : List CourseSkillRow
  skills : List SkillRow

/-- `_compute_skill_overlap` (batched): the returned dict, as a function of
the job id.  The service only reads it at ids of the batch, for which the
per-job loop body is `compute_skill_overlap_one`. -/
def compute_skill_overlap (db : DB) (student_id : Nat) : Nat → SkillResult :=
  fun jid => compute_skill_overlap_one (db.job_skills jid) (db.student_skills student_id)

/-- The `match_breakdown` dict attached to each scored job. -/
structure Breakdown where
  composite_score : ℚ
  vector_score : ℚ
  skill_score : Option ℚ
  experience_score : ℚ
  preference_score : ℚ
deriving DecidableEq

/-- The `skill_summary` dict attached to each scored job. -/
structure SkillSummary where
  total : Nat
  mandatory_matched : Nat
  mandatory_total : Nat
  optional_matched : Nat
  optional_total : Nat
deriving DecidableEq

/-- A job record of the recommend response, restricted to the match fields
attached in the stage-2 loop (lines 434–490); the passthrough display
columns are omitted. -/
structure ScoredJob where
  job_id : Nat
  match_score : ℚ
  match_breakdown : Breakdown
  matched_skills : List MatchedSkill
  missing_skills : List MissingSkill
  skill_summary : SkillSummary
deriving DecidableEq

/-- Body of the stage-2 `for c in candidates` loop (lines 434–490), minus
the threshold test.  The student arguments are the values loaded at lines
372–375 (already defaulted by `or`). -/
def score_candidate (student_exp : Int)
    (pref_remote_types pref_job_types pref_locations : List Str)
    (skill_results : Nat → SkillResult) (c : Candidate) : ScoredJob :=
  let skill_data := skill_results c.job_id
  let skill_score := skill_data.skill_score
  let experience_score :=
    compute_experience_fit student_exp c.experience_min_years c.experience_max_years
  let preference_score :=
    compute_preference_fit (some pref_remote_types) (some pref_job_types)
      (some pref_locations) c.remote_type c.employment_type c.location
  let composite := compute_composite c.vector_score skill_score experience_score preference_score
  { job_id := c.job_id
    match_score := composite
    match_breakdown :=
      { composite_score := composite
        vector_score := round4 c.vector_score
        skill_score := skill_score.map round4
        experience_score := round4 experience_score
        preference_score := round4 preference_score }
    matched_skills := skill_data.matched_skills
    missing_skills := skill_data.missing_skills
    skill_summary :=
      { total := skill_data.total_skills
        mandatory_matched := skill_data.mandatory_matched
        mandatory_total := skill_data.mandatory_total
        optional_matched := skill_data.optional_matched
        optional_total := skill_data.optional_total } }

/-- The stage-2 scored list, before the threshold filter: every stage-1
candidate of the student, scored. -/
def recommend_scored (db : DB) (student_id : Nat) : List ScoredJob :=
  match db.students student_id with
  | none => []
  | some student_row =>
    let student_exp := pyOrInt student_row.experience_years 0
    let pref_job_types := pyOrList student_row.preferred_job_types
    let pref_remote_types := pyOrList student_row.preferred_remote_types
    let pref_locations := pyOrList student_row.preferred_locations
    (db.retrieve student_id).map
      (score_candidate student_exp pref_remote_types pref_job_types pref_locations
        (compute_skill_overlap db student_id))

/-- Sort key of `final_jobs.sort(key=lambda x: x["match_score"], reverse=True)`:
`a` may precede `b` when its score is at least `b`'s.  Python's sort is
stable, which `List.mergeSort` matches. -/
def sortLE (a b : ScoredJob) : Bool := decide (b.match_score ≤ a.match_score)

/-- `MatchingService.get_recommended_jobs_for_student` (lines 337–497):
embedding guard, student load, stage-1 retrieval, stage-2 scoring, the
`composite < COMPOSITE_THRESHOLD: continue` filter, the stable descending
sort, and the in-memory slice `final_jobs[offset : offset + limit]`. -/
def get_recommended_jobs_for_student (db : DB) (student_id : Nat)
    (limit offset : Nat) : List ScoredJob :=
  if db.has_student_embedding student_id = false then []
  else if db.students student_id = none then []
  else if db.retrieve student_id = [] then []
  else
    let final_jobs := (recommend_scored db student_id).filter
      (fun sj => ¬ (sj.match_score < COMPOSITE_THRESHOLD))
    let sorted := final_jobs.mergeSort sortLE
    (sorted.drop offset).take limit

/-! ### `_get_gap_courses` (lines 294–331) -/

/-- One row of the gap-course query's join (before `DISTINCT ON`):
a published course linked to one of the queried skill names. -/
structure GapJoinRow where
  course : CourseRow
  skill_name : Str
  is_primary : Bool
deriving DecidableEq

/-- The `FROM course_skills JOIN skills JOIN courses WHERE s.name = ANY(...)
AND c.is_published` join.  Key lookups use `find?`, skill and course ids
being primary keys. -/
def gap_join_rows (db : DB) (skill_names : List Str) : List GapJoinRow :=
  db.course_skills.filterMap (fun cs =>
    match db.skills.find? (fun s => s.skill_id = cs.skill_id),
        db.courses.find? (fun c => c.course_id = cs.course_id) with
    | some s, some c =>
      if s.name ∈ skill_names ∧ c.is_published then
        some ⟨c, s.name, cs.is_primary⟩
      else none
    | _, _ => none)

/-- `ORDER BY c.course_id, cs.is_primary DESC`. -/
def gapRowLE (a b : GapJoinRow) : Bool :=
  decide (a.course.course_id < b.course.course_id)
    || (decide (a.course.course_id = b.course.course_id)
        && decide (b.is_primary ≤ a.is_primary))

/-- `DISTINCT ON (c.course_id)`: keep the first row of each course id in
the sorted order. -/
def distinct_on_course (seen : List Nat) : List GapJoinRow → List GapJoinRow
  | [] => []
  | r :: rs =>
    if r.course.course_id ∈ seen then distinct_on_course seen rs
    else r :: distinct_on_course (r.course.course_id :: seen) rs

/-- One entry of the course list returned by `_get_gap_courses`. -/
structure GapCourse where
  course_id : Nat
  title : Str
  slug : Str
  price : ℚ
  currency : Option Str
  thumbnail_url : Option Str
  teaches_skills : List Str
deriving DecidableEq

/-- `MatchingService._get_gap_courses`: empty guard, join, window aggregate
`ARRAY_AGG(s.name) OVER (PARTITION BY c.course_id)` (computed over all
rows passing the `WHERE`), sort, `DISTINCT ON`, `LIMIT 10`, and the Python
row-to-dict loop with `float(r["price"]) if r["price"] else 0`. -/
def get_gap_courses (db : DB) (missing_skill_names : List Str) : List GapCourse :=
  if missing_skill_names = [] then []
  else
    let joined := gap_join_rows db missing_skill_names
    let sorted := joined.mergeSort gapRowLE
    let limited := (distinct_on_course [] sorted).take 10
    limited.map (fun r =>
      { course_id := r.course.course_id
        title := r.course.title
        slug := r.course.slug
        price := pyOrRat r.course.price 0
        currency := r.course.currency
        thumbnail_url := r.course.thumbnail_url
        teaches_skills :=
          (joined.filter (fun j => j.course.course_id = r.course.course_id)).map
            (fun j => j.skill_name) })

/-! ### `get_job_detail` (lines 666–788) and
`compute_composite_for_application` (lines 794–851) -/

/-- Python truthiness of an optional numeric value: `x if x else None`
(`None` and `0` both map to `None`). -/
def truthyOptRat (x : Option ℚ) : Option ℚ :=
  match x with
  | some q => if q = 0 then none else some q
  | none => none

/-- Python truthiness of an optional integer id (`0` is falsy). -/
def truthyOptNat (x : Option Nat) : Bool :=
  match x with
  | some n => decide (n ≠ 0)
  | none => false

/-- The match-analysis fields of the job-detail response (lines 718–788);
the job's own columns and the company columns are passthrough and omitted. -/
structure JobDetailMatch where
  match_score : Option ℚ
  match_breakdown : Option Breakdown
  matched_skills : List MatchedSkill
  missing_skills : List MissingSkill
  skill_summary : Option SkillSummary
  gap_courses : List GapCourse
deriving DecidableEq

/-- `MatchingService.get_job_detail`, restricted to its match-analysis
output.  `vector_score` follows line 718:
`float(job.get("vector_score") or 0) if job.get("vector_score") else None`,
and the branch condition of line 721 is `vector_score is not None and
student_id` (ids are truthy only when nonzero). -/
def get_job_detail_match (db : DB) (job_id : Nat)
    (student_id : Option Nat) : Option JobDetailMatch :=
  match db.jobs job_id with
  | none => none
  | some job =>
    let raw_vector : Option ℚ :=
      match student_id with
      | some sid => db.similarity sid job_id
      | none => none
    let vector_score := truthyOptRat raw_vector
    match vector_score, student_id, truthyOptNat student_id with
    | some v, some sid, true =>
      let sr := db.students sid
      let student_exp :=
        match sr with
        | some r => pyOrInt r.experience_years 0
        | none => 0
      let pref_job_types :=
        match sr with | some r => pyOrList r.preferred_job_types | none => []
      let pref_remote_types :=
        match sr with | some r => pyOrList r.preferred_remote_types | none => []
      let pref_locations :=
        match sr with | some r => pyOrList r.preferred_locations | none => []
      let skill_data := compute_skill_overlap db sid job_id
      let skill_score := skill_data.skill_score
      let experience_score :=
        compute_experience_fit student_exp job.experience_min_years job.experience_max_years
      let preference_score :=
        compute_preference_fit (some pref_remote_types) (some pref_job_types)
          (some pref_locations) job.remote_type job.employment_type job.location
      let composite := compute_composite v skill_score experience_score preference_score
      some
        { match_score := some composite
          match_breakdown := some
            { composite_score := composite
              vector_score := round4 v
              skill_score := skill_score.map round4
              experience_score := round4 experience_score
              preference_score := round4 preference_score }
          matched_skills := skill_data.matched_skills
          missing_skills := skill_data.missing_skills
          skill_summary := some
            { total := skill_data.total_skills
              mandatory_matched := skill_data.mandatory_matched
              mandatory_total := skill_data.mandatory_total
              optional_matched := skill_data.optional_matched
              optional_total := skill_data.optional_total }
          gap_courses :=
            get_gap_courses db (skill_data.missing_skills.map (fun ms => ms.skill_name)) }
    | _, _, _ =>
      some
        { match_score := none
          match_breakdown := none
          matched_skills := []
          missing_skills := []
          skill_summary := none
          gap_courses := [] }

/-- `MatchingService.compute_composite_for_application` (lines 794–851).
Line 809's guard is `if not vec_row or not vec_row["score"]: return None`:
a similarity of exactly `0` is falsy and yields `None`. -/
def compute_composite_for_application (db : DB) (student_id job_id : Nat) : Option ℚ :=
  match truthyOptRat (db.similarity student_id job_id) with
  | none => none
  | some vector_score =>
    let sr := db.students student_id
    let student_exp :=
      match sr with
      | some r => pyOrInt r.experience_years 0
      | none => 0
    let pref_job_types :=
      match sr with | some r => pyOrList r.preferred_job_types | none => []
    let pref_remote_types :=
      match sr with | some r => pyOrList r.preferred_remote_types | none => []
    let pref_locations :=
      match sr with | some r => pyOrList r.preferred_locations | none => []
    match db.jobs job_id with
    | none => none
    | some jr =>
      let skill_score := (compute_skill_overlap db student_id job_id).skill_score
      let experience_score :=
        compute_experience_fit student_exp jr.experience_min_years jr.experience_max_years
      let preference_score :=
        compute_preference_fit (some pref_remote_types) (some pref_job_types)
          (some pref_locations) jr.remote_type jr.employment_type jr.location
      some (compute_composite vector_score skill_score experience_score preference_score)

/-! ### Closed-form counts for the skill-overlap loop -/

/-- The student holds the required skill (`sid in student_skills`). -/
def matchesStudent (student_skills : Nat → Option StudentSkillRow)
    (rs : JobSkillRow) : Bool :=
  (student_skills rs.skill_id).isSome

/-- The proficiency-bonus gate of lines 149–151: the skill is matched with
proficiency ≥ 4 and years of experience ≥ the requirement's minimum. -/
def bonusMatch (student_skills : Nat → Option StudentSkillRow)
    (rs : JobSkillRow) : Bool :=
  match student_skills rs.skill_id with
  | some ss =>
    decide (4 ≤ ss.proficiency_level)
      && decide (pyOrRat rs.min_experience_years 0 ≤ ss.years_of_experience)
  | none => false

def mandatoryTotal (reqs : List JobSkillRow) : ℕ :=
  reqs.countP (fun rs => rs.is_mandatory)

def optionalTotal (reqs : List JobSkillRow) : ℕ :=
  reqs.countP (fun rs => !rs.is_mandatory)

def mandatoryMatched (student_skills : Nat → Option StudentSkillRow)
    (reqs : List JobSkillRow) : ℕ :=
  reqs.countP (fun rs => rs.is_mandatory && matchesStudent student_skills rs)

def optionalMatched (student_skills : Nat → Option StudentSkillRow)
    (reqs : List JobSkillRow) : ℕ :=
  reqs.countP (fun rs => !rs.is_mandatory && matchesStudent student_skills rs)

def bonusCount (student_skills : Nat → Option StudentSkillRow)
    (reqs : List JobSkillRow) : ℕ :=
  reqs.countP (bonusMatch student_skills)

/-- The raw (pre-clamp, pre-round) skill score, in closed form over the
requirement list. -/
def skillScoreRaw (student_skills : Nat → Option StudentSkillRow)
    (reqs : List JobSkillRow) : ℚ :=
  if 0 < mandatoryTotal reqs then
    0.7 * ((mandatoryMatched student_skills reqs : ℚ) / (mandatoryTotal reqs : ℚ))
      + 0.3 * ((optionalMatched student_skills reqs : ℚ)
          / ((max (optionalTotal reqs) 1 : ℕ) : ℚ))
      + 0.05 * (bonusCount student_skills reqs : ℚ)
  else
    ((mandatoryMatched student_skills reqs + optionalMatched student_skills reqs : ℕ) : ℚ)
        / ((max (mandatoryTotal reqs + optionalTotal reqs) 1 : ℕ) : ℚ)
      + 0.05 * (bonusCount student_skills reqs : ℚ)

/-! ### Spec-side preference sub-signals (spec §4.4) -/

/-- Remote-type sub-signal as the spec states it: 1.0 if the job's remote
type is in the preferred set, 0.3 if not, 0.7 if the set is empty. -/
def remote_signal (prefs : List Str) (job_remote_type : Str) : ℚ :=
  if prefs = [] then 0.7 else if job_remote_type ∈ prefs then 1 else 0.3

/-- Employment-type sub-signal, same 1.0 / 0.3 / 0.7 pattern. -/
def employment_signal (prefs : List Str) (job_employment_type : Str) : ℚ :=
  if prefs = [] then 0.7 else if job_employment_type ∈ prefs then 1 else 0.3

/-- Location sub-signal: 1.0 on a case-insensitive substring match between
any preferred location and the job's location, 0.5 on mismatch when both
sides have data, 0.7 when either side is absent (missing or empty). -/
def location_signal (prefs : List Str) (job_location : Option Str) : ℚ :=
  match job_location with
  | none => 0.7
  | some jl =>
    if prefs = [] ∨ jl = [] then 0.7
    else if prefs.any (fun pl =>
        strIn (strLower pl) (strLower jl) || strIn (strLower jl) (strLower pl)) then 1
    else 0.5

/-! ### A small concrete database, used to instantiate the theorems -/

def exStudent : StudentRow := ⟨none, none, none, none⟩

/-- Job 1: composite lands exactly on the 0.65 threshold. -/
def exCandA : Candidate := ⟨1, 0.5545, none, none, [], [], none⟩

/-- Job 2: composite lands on 0.6499, just below the threshold. -/
def exCandB : Candidate := ⟨2, 0.5544, none, none, [], [], none⟩

/-- Job 3: a job that does declare a skill requirement. -/
def exCandC : Candidate := ⟨3, 0.5, none, none, [], [], none⟩

def exJobSkill : JobSkillRow := ⟨7, ['s', 'q', 'l'], true, none⟩

def exCourse : CourseRow := ⟨21, ['c'], ['c'], none, none, none, true⟩

def exJoinRow : GapJoinRow := ⟨exCourse, ['s', 'q', 'l'], true⟩

def exDB : DB where
  has_student_embedding := fun sid => decide (sid = 1)
  students := fun sid => if sid = 1 then some exStudent else none
  student_skills := fun _ _ => none
  job_skills := fun jid => if jid = 3 then [exJobSkill] else []
  retrieve := fun sid => if sid = 1 then [exCandA, exCandB] else []
  similarity := fun sid jid => if sid = 1 ∧ jid = 9 then some 0 else none
  jobs := fun jid => if jid = 9 then some ⟨none, none, [], [], none⟩ else none
  courses := [exCourse]
  course_skills := [⟨21, 7, true⟩]
  skills := [⟨7, ['s', 'q', 'l']⟩]

/-- Concrete requirement list for the skill-score clamp: one mandatory and
one optional requirement. -/
def c3reqs : List JobSkillRow :=
  [⟨1, ['a'], true, none⟩, ⟨2, ['b'], false, none⟩]

/-- A student holding both skills at proficiency 5 with 10 years. -/
def c3skills : Nat → Option StudentSkillRow :=
  fun sid =>
    if sid = 1 then some ⟨1, 5, 10⟩
    else if sid = 2 then some ⟨2, 5, 10⟩
    else none


/-! ### Helper lemmas about `round4` -/

theorem round4_nonneg {q : ℚ} (h : 0 ≤ q) : 0 ≤ round4 q := by
  unfold round4
  apply div_nonneg _ (by norm_num)
  have h0 : (0 : ℤ) ≤ round (q * 10000) := by
    rw [round_eq]
    apply Int.floor_nonneg.mpr
    nlinarith
  exact_mod_cast h0

theorem round4_le_one {q : ℚ} (h : q ≤ 1) : round4 q ≤ 1 := by
  unfold round4
  rw [div_le_one (by norm_num)]
  have h1 : round (q * 10000) ≤ 10000 := by
    rw [round_eq]
    by_contra hc
    push_neg at hc
    have h2 : ((10001 : ℤ) : ℚ) ≤ q * 10000 + 1 / 2 := Int.le_floor.mp hc
    push_cast at h2
    nlinarith
  exact_mod_cast h1

theorem round4_idem (q : ℚ) : round4 (round4 q) = round4 q := by
  unfold round4
  rw [div_mul_cancel₀ _ (by norm_num : (10000 : ℚ) ≠ 0), round_intCast]

theorem overlapStep_counts (student_skills : Nat → Option StudentSkillRow)
    (acc : OverlapAcc) (rs : JobSkillRow) :
    (overlapStep student_skills acc rs).mandatory_total
        = acc.mandatory_total + (if rs.is_mandatory then 1 else 0)
      ∧ (overlapStep student_skills acc rs).optional_total
        = acc.optional_total + (if !rs.is_mandatory then 1 else 0)
      ∧ (overlapStep student_skills acc rs).mandatory_matched
        = acc.mandatory_matched
          + (if rs.is_mandatory && matchesStudent student_skills rs then 1 else 0)
      ∧ (overlapStep student_skills acc rs).optional_matched
        = acc.optional_matched
          + (if !rs.is_mandatory && matchesStudent student_skills rs then 1 else 0)
      ∧ (overlapStep student_skills acc rs).proficiency_bonus_count
        = acc.proficiency_bonus_count + (if bonusMatch student_skills rs then 1 else 0) := by
  unfold overlapStep matchesStudent bonusMatch
  cases hs : student_skills rs.skill_id with
  | none =>
    cases hm : rs.is_mandatory <;> simp [hs, hm]
  | some ss =>
    cases hm : rs.is_mandatory <;>
      by_cases hb : 4 ≤ ss.proficiency_level ∧
          pyOrRat rs.min_experience_years 0 ≤ ss.years_of_experience <;>
        simp [hs, hm, hb, decide_eq_true_eq]

theorem overlap_foldl_counts (student_skills : Nat → Option StudentSkillRow)
    (reqs : List JobSkillRow) (acc : OverlapAcc) :
    (reqs.foldl (overlapStep student_skills) acc).mandatory_total
        = acc.mandatory_total + mandatoryTotal reqs
      ∧ (reqs.foldl (overlapStep student_skills) acc).optional_total
        = acc.optional_total + optionalTotal reqs
      ∧ (reqs.foldl (overlapStep student_skills) acc).mandatory_matched
        = acc.mandatory_matched + mandatoryMatched student_skills reqs
      ∧ (reqs.foldl (overlapStep student_skills) acc).optional_matched
        = acc.optional_matched + optionalMatched student_skills reqs
      ∧ (reqs.foldl (overlapStep student_skills) acc).proficiency_bonus_count
        = acc.proficiency_bonus_count + bonusCount student_skills reqs := by
  induction reqs generalizing acc with
  | nil =>
    simp [mandatoryTotal, optionalTotal, mandatoryMatched, optionalMatched, bonusCount]
  | cons rs rest ih =>
    simp only [List.foldl_cons]
    obtain ⟨i1, i2, i3, i4, i5⟩ := ih (overlapStep student_skills acc rs)
    obtain ⟨s1, s2, s3, s4, s5⟩ := overlapStep_counts student_skills acc rs
    refine ⟨?_, ?_, ?_, ?_, ?_⟩ <;>
      simp only [i1, i2, i3, i4, i5, s1, s2, s3, s4, s5, mandatoryTotal,
        optionalTotal, mandatoryMatched, optionalMatched, bonusCount,
        List.countP_cons] <;> omega

theorem skill_overlap_score_eq (student_skills : Nat → Option StudentSkillRow)
    (reqs : List JobSkillRow) (h : reqs ≠ []) :
    (compute_skill_overlap_one reqs student_skills).skill_score
      = some (round4 (min (skillScoreRaw student_skills reqs) 1)) := by
  obtain ⟨c1, c2, c3, c4, c5⟩ := overlap_foldl_counts student_skills reqs overlapAcc0
  rw [show overlapAcc0.mandatory_total = 0 from rfl, Nat.zero_add] at c1
  rw [show overlapAcc0.optional_total = 0 from rfl, Nat.zero_add] at c2
  rw [show overlapAcc0.mandatory_matched = 0 from rfl, Nat.zero_add] at c3
  rw [show overlapAcc0.optional_matched = 0 from rfl, Nat.zero_add] at c4
  rw [show overlapAcc0.proficiency_bonus_count = 0 from rfl, Nat.zero_add] at c5
  unfold compute_skill_overlap_one skillScoreRaw
  rw [if_neg h]
  simp only [c1, c2, c3, c4, c5]

theorem skillScoreRaw_nonneg (student_skills : Nat → Option StudentSkillRow)
    (reqs : List JobSkillRow) : 0 ≤ skillScoreRaw student_skills reqs := by
  unfold skillScoreRaw
  split <;> positivity

theorem skill_score_bounds (student_skills : Nat → Option StudentSkillRow)
    (reqs : List JobSkillRow) (s : ℚ)
    (h : (compute_skill_overlap_one reqs student_skills).skill_score = some s) :
    0 ≤ s ∧ s ≤ 1 := by
  by_cases hr : reqs = []
  · subst hr
    simp [compute_skill_overlap_one] at h
  · rw [skill_overlap_score_eq student_skills reqs hr] at h
    have hs : s = round4 (min (skillScoreRaw student_skills reqs) 1) := by
      exact (Option.some.injEq _ _ ▸ h).symm
    subst hs
    constructor
    · exact round4_nonneg (le_min (skillScoreRaw_nonneg student_skills reqs) zero_le_one)
    · exact round4_le_one (min_le_right _ _)

/-! ### Stability of the descending sort -/

/-- A stable sort by a rational key leaves the relative order of
equal-key elements unchanged: filtering the sorted list down to any one
key value gives back the same-key elements in input order. -/
theorem filter_key_mergeSort {α : Type} (key : α → ℚ) (l : List α) (v : ℚ) :
    (l.mergeSort (fun a b => decide (key b ≤ key a))).filter
        (fun x => decide (key x = v))
      = l.filter (fun x => decide (key x = v)) := by
  set le : α → α → Bool := fun a b => decide (key b ≤ key a) with hle
  set p : α → Bool := fun x => decide (key x = v) with hp
  have htrans : ∀ a b c : α, le a b → le b c → le a c := by
    intro a b c hab hbc
    simp only [hle, decide_eq_true_eq] at hab hbc ⊢
    exact le_trans hbc hab
  have htotal : ∀ a b : α, le a b || le b a := by
    intro a b
    simp only [hle, Bool.or_eq_true, decide_eq_true_eq]
    exact le_total (key b) (key a)
  have hpair : (l.filter p).Pairwise (fun a b => le a b = true) := by
    apply List.pairwise_of_forall_mem_list
    intro a ha b hb
    have hpa := (List.mem_filter.mp ha).2
    have hpb := (List.mem_filter.mp hb).2
    simp only [hp, decide_eq_true_eq] at hpa hpb
    simp only [hle, decide_eq_true_eq]
    exact le_of_eq (hpb.trans hpa.symm)
  have hsub : List.Sublist (l.filter p) (l.mergeSort le) :=
    List.sublist_mergeSort htrans htotal hpair (List.filter_sublist l)
  have hfe : (l.filter p).filter p = l.filter p := by
    simp [List.filter_filter]
  have hsub2 : List.Sublist (l.filter p) ((l.mergeSort le).filter p) := by
    have h1 := hsub.filter p
    rwa [hfe] at h1
  have hperm : List.Perm ((l.mergeSort le).filter p) (l.filter p) :=
    (List.mergeSort_perm l le).filter p
  exact (hsub2.eq_of_length hperm.length_eq.symm).symm

/-! ### Lemmas about `distinct_on_course` -/

theorem mem_distinct_on_course {seen : List Nat} {l : List GapJoinRow}
    {x : GapJoinRow} (h : x ∈ distinct_on_course seen l) :
    x ∈ l ∧ x.course.course_id ∉ seen := by
  induction l generalizing seen with
  | nil => simp [distinct_on_course] at h
  | cons r rs ih =>
    simp only [distinct_on_course] at h
    split at h
    case isTrue hseen =>
      obtain ⟨hx, hns⟩ := ih h
      exact ⟨List.mem_cons_of_mem _ hx, hns⟩
    case isFalse hseen =>
      rcases List.mem_cons.mp h with he | hm
      · subst he
        exact ⟨List.mem_cons_self _ _, hseen⟩
      · obtain ⟨hx, hns⟩ := ih hm
        refine ⟨List.mem_cons_of_mem _ hx, fun hc => ?_⟩
        exact hns (List.mem_cons_of_mem _ hc)

theorem distinct_on_course_pairwise (seen : List Nat) (l : List GapJoinRow) :
    (distinct_on_course seen l).Pairwise
      (fun a b => a.course.course_id ≠ b.course.course_id) := by
  induction l generalizing seen with
  | nil => simp [distinct_on_course]
  | cons r rs ih =>
    simp only [distinct_on_course]
    split
    · exact ih seen
    · refine List.Pairwise.cons ?_ (ih _)
      intro b hb
      have hns := (mem_distinct_on_course hb).2
      simp only [List.mem_cons, not_or] at hns
      exact fun hc => hns.1 hc.symm

theorem distinct_on_course_primary :
    ∀ (l : List GapJoinRow), l.Pairwise (fun a b => gapRowLE a b = true) →
      ∀ (seen : List Nat), ∀ x ∈ distinct_on_course seen l, ∀ y ∈ l,
        y.course.course_id = x.course.course_id → y.is_primary ≤ x.is_primary := by
  intro l
  induction l with
  | nil =>
    intro _ seen x hx
    simp [distinct_on_course] at hx
  | cons r rs ih =>
    intro hpair seen x hx y hy hcid
    have hpair' := List.Pairwise.of_cons hpair
    have hrel : ∀ b ∈ rs, gapRowLE r b = true :=
      fun b hb => List.rel_of_pairwise_cons hpair hb
    simp only [distinct_on_course] at hx
    split at hx
    case isTrue hseen =>
      have hxn := (mem_distinct_on_course hx).2
      rcases List.mem_cons.mp hy with he | hm
      · subst he
        exact absurd (hcid ▸ hseen) hxn
      · exact ih hpair' seen x hx y hm hcid
    case isFalse hseen =>
      rcases List.mem_cons.mp hx with he | hm
      · subst he
        rcases List.mem_cons.mp hy with hye | hym
        · subst hye
          exact le_refl _
        · have h1 := hrel y hym
          simp only [gapRowLE, Bool.or_eq_true, Bool.and_eq_true,
            decide_eq_true_eq] at h1
          rcases h1 with hlt | ⟨heq, hle⟩
          · omega
          · exact hle
      · have hxn := (mem_distinct_on_course hm).2
        rcases List.mem_cons.mp hy with hye | hym
        · subst hye
          exact absurd (by simp [hcid]) hxn
        · exact ih hpair' _ x hm y hym hcid

theorem gapRowLE_trans :
    ∀ a b c : GapJoinRow, gapRowLE a b → gapRowLE b c → gapRowLE a c := by
  intro a b c h1 h2
  simp only [gapRowLE, Bool.or_eq_true, Bool.and_eq_true, decide_eq_true_eq]
    at h1 h2 ⊢
  rcases h1 with h1 | ⟨e1, p1⟩ <;> rcases h2 with h2 | ⟨e2, p2⟩
  · left
    omega
  · left
    omega
  · left
    omega
  · right
    exact ⟨e1.trans e2, le_trans p2 p1⟩

theorem gapRowLE_total : ∀ a b : GapJoinRow, gapRowLE a b || gapRowLE b a := by
  intro a b
  simp only [gapRowLE, Bool.or_eq_true, Bool.and_eq_true, decide_eq_true_eq]
  rcases Nat.lt_trichotomy a.course.course_id b.course.course_id with h | h | h
  · exact Or.inl (Or.inl h)
  · rcases le_total b.is_primary a.is_primary with hp | hp
    · exact Or.inl (Or.inr ⟨h, hp⟩)
    · exact Or.inr (Or.inr ⟨h.symm, hp⟩)
  · exact Or.inr (Or.inl h)

/-! ### Small helper facts -/

theorem pyOrInt_some_zero (v : Int) : pyOrInt (some v) 0 = v := by
  rcases eq_or_ne v 0 with h | h <;> simp [pyOrInt, h]

theorem pyOrInt_none (d : Int) : pyOrInt none d = d := rfl

/-! ### Claim theorems -/

/-- C7: for every student with no current embedding, Recommend returns the
empty list (the embedding guard of lines 347–354); the function is total,
so no error can be raised. -/
theorem c7_no_embedding_empty (db : DB) (sid limit offset : Nat)
    (h : db.has_student_embedding sid = false) :
    get_recommended_jobs_for_student db sid limit offset = [] := by
  simp [get_recommended_jobs_for_student, h]

theorem c7_witness :
    exDB.has_student_embedding 2 = false
      ∧ get_recommended_jobs_for_student exDB 2 50 0 = [] :=
  ⟨rfl, c7_no_embedding_empty exDB 2 50 0 rfl⟩

/-- C10: when both embeddings exist but the rounded similarity is exactly
0, the truthiness tests of lines 718–721 and 809–812 treat the pairing as
unscorable: the job detail carries null match fields and the apply-time
composite is `None`. -/
theorem c10_zero_similarity_null (db : DB) (sid jid : Nat) (job : JobRow)
    (hj : db.jobs jid = some job) (hsim : db.similarity sid jid = some 0) :
    get_job_detail_match db jid (some sid)
        = some ⟨none, none, [], [], none, []⟩
      ∧ compute_composite_for_application db sid jid = none := by
  constructor
  · unfold get_job_detail_match
    rw [hj]
    simp [hsim, truthyOptRat]
  · unfold compute_composite_for_application
    rw [hsim]
    simp [truthyOptRat]

theorem c10_witness :
    get_job_detail_match exDB 9 (some 1) = some ⟨none, none, [], [], none, []⟩
      ∧ compute_composite_for_application exDB 1 9 = none :=
  c10_zero_similarity_null exDB 1 9 ⟨none, none, [], [], none⟩ rfl rfl

/-- C4 (amended): the experience-fit case analysis as the code implements
it.  Neutral 0.8 with no range; 1.0 inside the range; the under-qualified
formula `max(0, 1 − gap/min)`; and the over-qualified formula
`max(0.5, 1 − gap/10)` — the latter only when the stated maximum is
nonzero (a stated maximum of 0 is falsy in Python and is replaced by
`min + 10`) and the student is not below the effective minimum. -/
theorem c4_experience_fit_cases :
    (∀ s : Int, compute_experience_fit s none none = 0.8)
      ∧ (∀ s mn mx : Int, 0 ≤ mn → mn ≤ s → s ≤ mx →
          compute_experience_fit s (some mn) (some mx) = 1)
      ∧ (∀ (s mn : Int) (mxo : Option Int), 0 ≤ s → s < mn →
          compute_experience_fit s (some mn) mxo
            = max 0 (1 - ((mn - s : Int) : ℚ) / ((mn : Int) : ℚ)))
      ∧ (∀ (s mx : Int) (mno : Option Int), 1 ≤ mx → mx < s → pyOrInt mno 0 ≤ s →
          compute_experience_fit s mno (some mx)
            = max 0.5 (1 - ((s - mx : Int) : ℚ) / 10)) := by
  refine ⟨?_, ?_, ?_, ?_⟩
  · intro s
    simp [compute_experience_fit]
  · intro s mn mx h0 h1 h2
    have hmax : s ≤ pyOrInt (some mx) (mn + 10) := by
      rcases eq_or_ne mx 0 with h | h <;> simp [pyOrInt, h] <;> omega
    simp only [compute_experience_fit, pyOrInt_some_zero]
    rw [if_neg (by simp), if_pos ⟨h1, hmax⟩]
  · intro s mn mxo h0 h1
    simp only [compute_experience_fit, pyOrInt_some_zero]
    rw [if_neg (by simp)]
    rw [if_neg (by rintro ⟨ha, _⟩; omega)]
    rw [if_pos h1]
    rw [max_eq_left (by omega : (1 : ℤ) ≤ mn)]
  · intro s mx mno h1 h2 h3
    have hx : mx ≠ 0 := by omega
    have he : pyOrInt (some mx) (pyOrInt mno 0 + 10) = mx := by
      simp [pyOrInt, hx]
    simp only [compute_experience_fit]
    rw [if_neg (by simp)]
    rw [he]
    rw [if_neg (by rintro ⟨_, hb⟩; omega)]
    rw [if_neg (by omega)]

/-- C4 counterexample: a job stating `max = 0` and no minimum.  The claim's
over-qualified case demands `max(0.5, 1 − (1−0)/10) = 0.9` for a student
with one year, but the code returns 1.0 because `0` is falsy and the
maximum is replaced by `min + 10 = 10`. -/
theorem c4_counterexample :
    compute_experience_fit 1 none (some 0) = 1
      ∧ max (0.5 : ℚ) (1 - ((1 - 0 : Int) : ℚ) / 10) ≠ 1 := by
  constructor
  · norm_num [compute_experience_fit, pyOrInt]
    exact Option.some_ne_none _
  · norm_num

theorem c4_witness :
    compute_experience_fit 3 none none = 0.8
      ∧ compute_experience_fit 3 (some 2) (some 5) = 1
      ∧ compute_experience_fit 0 (some 5) none
        = max 0 (1 - ((5 - 0 : Int) : ℚ) / ((5 : Int) : ℚ))
      ∧ compute_experience_fit 6 (some 2) (some 5)
        = max 0.5 (1 - ((6 - 5 : Int) : ℚ) / 10) := by
  obtain ⟨p1, p2, p3, p4⟩ := c4_experience_fit_cases
  exact ⟨p1 3, p2 3 2 5 (by norm_num) (by norm_num) (by norm_num),
    p3 0 5 none (by norm_num) (by norm_num),
    p4 6 5 (some 2) (by norm_num) (by norm_num) (by norm_num [pyOrInt])⟩

/-- C5 (amended): with a stated minimum and no maximum the code substitutes
an implicit maximum of `min + 10`: students with `min ≤ years ≤ min + 10`
score 1.0, but beyond `min + 10` the over-qualification penalty
`max(0.5, 1 − (years − (min+10))/10)` applies. -/
theorem c5_experience_no_max_cases :
    (∀ s mn : Int, mn ≤ s → s ≤ mn + 10 →
        compute_experience_fit s (some mn) none = 1)
      ∧ (∀ s mn : Int, mn + 10 < s →
          compute_experience_fit s (some mn) none
            = max 0.5 (1 - ((s - (mn + 10) : Int) : ℚ) / 10)) := by
  constructor
  · intro s mn h1 h2
    simp only [compute_experience_fit, pyOrInt_some_zero, pyOrInt_none]
    rw [if_neg (by simp), if_pos ⟨h1, h2⟩]
  · intro s mn h1
    simp only [compute_experience_fit, pyOrInt_some_zero, pyOrInt_none]
    rw [if_neg (by simp)]
    rw [if_neg (by rintro ⟨_, hb⟩; omega)]
    rw [if_neg (by omega)]

/-- C5 counterexample: job minimum 2 years, no maximum, student with 20
years.  The claim demands 1.0; the code returns 0.5. -/
theorem c5_counterexample :
    compute_experience_fit 20 (some 2) none = 1 / 2 ∧ ((1 : ℚ) / 2) ≠ 1 := by
  constructor
  · norm_num [compute_experience_fit, pyOrInt]
    exact Option.some_ne_none _
  · norm_num

theorem c5_witness :
    compute_experience_fit 7 (some 2) none = 1
      ∧ compute_experience_fit 20 (some 2) none
        = max 0.5 (1 - ((20 - (2 + 10) : Int) : ℚ) / 10) := by
  obtain ⟨p1, p2⟩ := c5_experience_no_max_cases
  exact ⟨p1 7 2 (by norm_num) (by norm_num), p2 20 2 (by norm_num)⟩

/-- C3 (amended): the skill score is the claimed formula *clamped above at
1* (line 178's `min(score, 1.0)`) and rounded; the fallback for zero
mandatory requirements; and the `[0, 1]` bounds. -/
theorem c3_skill_score_clamped (reqs : List JobSkillRow)
    (student_skills : Nat → Option StudentSkillRow) :
    (reqs ≠ [] → 0 < mandatoryTotal reqs →
      (compute_skill_overlap_one reqs student_skills).skill_score
        = some (round4 (min
            (0.7 * ((mandatoryMatched student_skills reqs : ℚ) / (mandatoryTotal reqs : ℚ))
              + 0.3 * ((optionalMatched student_skills reqs : ℚ)
                  / ((max (optionalTotal reqs) 1 : ℕ) : ℚ))
              + 0.05 * (bonusCount student_skills reqs : ℚ)) 1)))
      ∧ (reqs ≠ [] → mandatoryTotal reqs = 0 →
        (compute_skill_overlap_one reqs student_skills).skill_score
          = some (round4 (min
              (((mandatoryMatched student_skills reqs + optionalMatched student_skills reqs : ℕ) : ℚ)
                  / ((max (mandatoryTotal reqs + optionalTotal reqs) 1 : ℕ) : ℚ)
                + 0.05 * (bonusCount student_skills reqs : ℚ)) 1)))
      ∧ (∀ s : ℚ, (compute_skill_overlap_one reqs student_skills).skill_score = some s →
          0 ≤ s ∧ s ≤ 1) := by
  refine ⟨?_, ?_, fun s h => skill_score_bounds student_skills reqs s h⟩
  · intro h hm
    rw [skill_overlap_score_eq student_skills reqs h]
    unfold skillScoreRaw
    rw [if_pos hm]
  · intro h hm
    rw [skill_overlap_score_eq student_skills reqs h]
    unfold skillScoreRaw
    rw [if_neg (by omega)]

/-- C3 counterexample: one mandatory and one optional requirement, both
matched at proficiency 5 with ample experience.  The claim's unclamped
formula gives `0.7 + 0.3 + 0.05·2 = 1.1`, but the code reports `1`. -/
theorem c3_counterexample :
    (compute_skill_overlap_one c3reqs c3skills).skill_score = some 1
      ∧ 0.7 * ((mandatoryMatched c3skills c3reqs : ℚ) / (mandatoryTotal c3reqs : ℚ))
        + 0.3 * ((optionalMatched c3skills c3reqs : ℚ)
            / ((max (optionalTotal c3reqs) 1 : ℕ) : ℚ))
        + 0.05 * (bonusCount c3skills c3reqs : ℚ) = 1.1
      ∧ (1 : ℚ) ≠ 1.1 := by
  have hmt : mandatoryTotal c3reqs = 1 := by decide
  have hot : optionalTotal c3reqs = 1 := by decide
  have hmm : mandatoryMatched c3skills c3reqs = 1 := by decide
  have hom : optionalMatched c3skills c3reqs = 1 := by decide
  have hb : bonusCount c3skills c3reqs = 2 := by
    simp only [bonusCount, c3reqs, bonusMatch, c3skills, List.countP_cons, List.countP_nil]
    norm_num [pyOrRat]
  refine ⟨?_, ?_, by norm_num⟩
  · rw [skill_overlap_score_eq c3skills c3reqs (by simp [c3reqs])]
    unfold skillScoreRaw
    rw [hmt, hot, hmm, hom, hb]
    norm_num [round4, round_eq]
  · rw [hmt, hot, hmm, hom, hb]
    norm_num

theorem c3_witness :
    (compute_skill_overlap_one c3reqs c3skills).skill_score
        = some (round4 (min
            (0.7 * ((mandatoryMatched c3skills c3reqs : ℚ) / (mandatoryTotal c3reqs : ℚ))
              + 0.3 * ((optionalMatched c3skills c3reqs : ℚ)
                  / ((max (optionalTotal c3reqs) 1 : ℕ) : ℚ))
              + 0.05 * (bonusCount c3skills c3reqs : ℚ)) 1))
      ∧ 0 ≤ round4 (min
            (0.7 * ((mandatoryMatched c3skills c3reqs : ℚ) / (mandatoryTotal c3reqs : ℚ))
              + 0.3 * ((optionalMatched c3skills c3reqs : ℚ)
                  / ((max (optionalTotal c3reqs) 1 : ℕ) : ℚ))
              + 0.05 * (bonusCount c3skills c3reqs : ℚ)) 1)
      ∧ round4 (min
            (0.7 * ((mandatoryMatched c3skills c3reqs : ℚ) / (mandatoryTotal c3reqs : ℚ))
              + 0.3 * ((optionalMatched c3skills c3reqs : ℚ)
                  / ((max (optionalTotal c3reqs) 1 : ℕ) : ℚ))
              + 0.05 * (bonusCount c3skills c3reqs : ℚ)) 1) ≤ 1 := by
  have h := c3_skill_score_clamped c3reqs c3skills
  have h1 := h.1 (by simp [c3reqs]) (by decide)
  have hb := h.2.2 _ h1
  exact ⟨h1, hb.1, hb.2⟩

/-! ### C6 helper equalities between the code's sub-signal branches and the
spec-side sub-signal functions -/

theorem remote_sub_eq (prefs : List Str) (rt : Str) :
    (if prefs ≠ [] then (if rt ∈ prefs then (1 : ℚ) else 0.3) else 0.7)
      = remote_signal prefs rt := by
  unfold remote_signal
  by_cases h : prefs = [] <;> simp [h]

theorem employment_sub_eq (prefs : List Str) (et : Str) :
    (if prefs ≠ [] then (if et ∈ prefs then (1 : ℚ) else 0.3) else 0.7)
      = employment_signal prefs et := by
  unfold employment_signal
  by_cases h : prefs = [] <;> simp [h]

theorem location_sub_eq (prefs : List Str) (loc : Option Str) :
    (match loc with
      | some jl =>
        if prefs ≠ [] ∧ jl ≠ [] then
          (if prefs.any (fun pl =>
              strIn (strLower pl) (strLower jl)
                || strIn (strLower jl) (strLower pl)) then (1 : ℚ)
          else 0.5)
        else 0.7
      | none => 0.7)
      = location_signal prefs loc := by
  unfold location_signal
  cases loc with
  | none => rfl
  | some jl =>
    dsimp only
    by_cases h : prefs = [] ∨ jl = []
    · rw [if_neg (by tauto), if_pos h]
    · rw [if_pos (by tauto), if_neg h]

/-- C6: the preference score is the rounded arithmetic mean of the three
sub-signals (1.0 / 0.3 / 0.7 for remote and employment type,
1.0 / 0.5 / 0.7 for location), and a student with empty preference sets on
all three dimensions gets exactly 0.7. -/
theorem c6_preference_mean (pr pj pl : Option (List Str)) (rt et : Str)
    (loc : Option Str) :
    compute_preference_fit pr pj pl rt et loc
      = round4 ((remote_signal (pyOrList pr) rt + employment_signal (pyOrList pj) et
          + location_signal (pyOrList pl) loc) / 3)
      ∧ compute_preference_fit (some []) (some []) (some []) rt et loc = 0.7 := by
  constructor
  · simp only [compute_preference_fit]
    rw [if_pos (by simp)]
    rw [remote_sub_eq (pyOrList pr) rt, employment_sub_eq (pyOrList pj) et,
      location_sub_eq (pyOrList pl) loc]
    simp only [List.sum_cons, List.sum_nil, List.length_cons, List.length_nil]
    norm_num
    ring_nf
  · simp only [compute_preference_fit, pyOrList, Option.getD_some]
    rw [if_pos (by simp)]
    have d3 : (match loc with
        | some jl =>
          if ([] : List Str) ≠ [] ∧ jl ≠ [] then
            (if ([] : List Str).any (fun pl =>
                strIn (strLower pl) (strLower jl)
                  || strIn (strLower jl) (strLower pl)) then (1 : ℚ)
            else 0.5)
          else 0.7
        | none => 0.7) = 0.7 := by
      cases loc <;> simp
    rw [location_sub_eq]
    simp only [location_sub_eq] at d3
    rw [d3]
    simp only [List.sum_cons, List.sum_nil, List.length_cons, List.length_nil]
    norm_num [round4, round_eq]

/-- C1: the composite attached to a scored pairing is the documented
weighted sum.  When the job declares no skill requirements the reported
`skill_score` is `none` — never a defaulted 0 — and the redistributed
weights 0.55 / 0.30 / 0.15 apply; otherwise `skill_score` is defined and
the weights are 0.35 / 0.35 / 0.20 / 0.10. -/
theorem c1_composite_weighted_sum (db : DB) (sid : Nat) (student_exp : Int)
    (pr pj pl : List Str) (c : Candidate) :
    (db.job_skills c.job_id = [] →
      (score_candidate student_exp pr pj pl (compute_skill_overlap db sid)
          c).match_breakdown.skill_score = none
        ∧ (score_candidate student_exp pr pj pl (compute_skill_overlap db sid)
            c).match_score
          = round4 (0.55 * c.vector_score
            + 0.30 * compute_experience_fit student_exp c.experience_min_years
                c.experience_max_years
            + 0.15 * compute_preference_fit (some pr) (some pj) (some pl)
                c.remote_type c.employment_type c.location))
      ∧ (db.job_skills c.job_id ≠ [] →
        ∃ s : ℚ,
          (score_candidate student_exp pr pj pl (compute_skill_overlap db sid)
              c).match_breakdown.skill_score = some s
            ∧ (score_candidate student_exp pr pj pl (compute_skill_overlap db sid)
                c).match_score
              = round4 (0.35 * c.vector_score + 0.35 * s
                + 0.20 * compute_experience_fit student_exp c.experience_min_years
                    c.experience_max_years
                + 0.10 * compute_preference_fit (some pr) (some pj) (some pl)
                    c.remote_type c.employment_type c.location)) := by
  constructor
  · intro h
    have hnone : (compute_skill_overlap db sid c.job_id).skill_score = none := by
      unfold compute_skill_overlap
      rw [h]
      simp [compute_skill_overlap_one]
    constructor
    · simp [score_candidate, hnone]
    · simp [score_candidate, hnone, compute_composite, W_VECTOR_FALLBACK,
        W_EXPERIENCE_FALLBACK, W_PREFERENCE_FALLBACK]
  · intro h
    have hsome : (compute_skill_overlap db sid c.job_id).skill_score
        = some (round4 (min (skillScoreRaw (db.student_skills sid)
            (db.job_skills c.job_id)) 1)) :=
      skill_overlap_score_eq (db.student_skills sid) (db.job_skills c.job_id) h
    refine ⟨round4 (min (skillScoreRaw (db.student_skills sid)
        (db.job_skills c.job_id)) 1), ?_, ?_⟩
    · simp [score_candidate, hsome, round4_idem]
    · simp [score_candidate, hsome, compute_composite, W_VECTOR, W_SKILL,
        W_EXPERIENCE, W_PREFERENCE]

theorem c1_witness :
    (score_candidate 0 [] [] [] (compute_skill_overlap exDB 1)
        exCandA).match_breakdown.skill_score = none
      ∧ (score_candidate 0 [] [] [] (compute_skill_overlap exDB 1)
          exCandA).match_score
        = round4 (0.55 * exCandA.vector_score
          + 0.30 * compute_experience_fit 0 exCandA.experience_min_years
              exCandA.experience_max_years
          + 0.15 * compute_preference_fit (some []) (some []) (some [])
              exCandA.remote_type exCandA.employment_type exCandA.location)
      ∧ (score_candidate 0 [] [] [] (compute_skill_overlap exDB 1)
          exCandC).match_breakdown.skill_score
        = some (round4 (min (skillScoreRaw (exDB.student_skills 1)
            (exDB.job_skills exCandC.job_id)) 1)) := by
  have hA := (c1_composite_weighted_sum exDB 1 0 [] [] [] exCandA).1 (by decide)
  have hC := (c1_composite_weighted_sum exDB 1 0 [] [] [] exCandC).2 (by decide)
  obtain ⟨s, hs1, _⟩ := hC
  have h0 : (score_candidate 0 [] [] [] (compute_skill_overlap exDB 1)
      exCandC).match_breakdown.skill_score
      = some (round4 (min (skillScoreRaw (exDB.student_skills 1)
          (exDB.job_skills exCandC.job_id)) 1)) := by
    have hsome := skill_overlap_score_eq (exDB.student_skills 1)
      (exDB.job_skills exCandC.job_id) (by decide)
    simp [score_candidate, compute_skill_overlap, hsome, round4_idem]
  exact ⟨hA.1, hA.2, h0⟩

/-- C2: Recommend's acceptance filter keeps a scored candidate iff its
composite is at least the 0.65 acceptance threshold (line 461's
`if composite < COMPOSITE_THRESHOLD: continue`, inclusive at equality). -/
theorem c2_acceptance_threshold (db : DB) (sid limit : Nat)
    (h1 : db.has_student_embedding sid = true)
    (h2 : db.students sid ≠ none)
    (h3 : db.retrieve sid ≠ [])
    (h4 : ((recommend_scored db sid).filter
        (fun sj => ¬ (sj.match_score < COMPOSITE_THRESHOLD))).length ≤ limit)
    (sj : ScoredJob) :
    sj ∈ get_recommended_jobs_for_student db sid limit 0
      ↔ sj ∈ recommend_scored db sid ∧ (0.65 : ℚ) ≤ sj.match_score := by
  simp only [get_recommended_jobs_for_student]
  rw [if_neg (by simp [h1]), if_neg h2, if_neg h3]
  rw [List.drop_zero]
  rw [List.take_of_length_le (by simpa using h4)]
  rw [List.mem_mergeSort, List.mem_filter]
  simp [COMPOSITE_THRESHOLD, not_lt]

/-! Concrete evaluations on the example database, used by the
instantiations below. -/

theorem ex_pref_eval :
    compute_preference_fit (some []) (some []) (some []) ([] : Str) [] none
      = 0.7 := by
  simp [compute_preference_fit, pyOrList]
  norm_num [round4, round_eq]

theorem ex_scored :
    recommend_scored exDB 1
      = [score_candidate 0 [] [] [] (compute_skill_overlap exDB 1) exCandA,
        score_candidate 0 [] [] [] (compute_skill_overlap exDB 1) exCandB] := rfl

theorem ex_scoreA :
    (score_candidate 0 [] [] [] (compute_skill_overlap exDB 1)
      exCandA).match_score = 0.65 := by
  simp [score_candidate, compute_skill_overlap, exDB, exCandA,
    compute_skill_overlap_one, compute_experience_fit, ex_pref_eval,
    compute_composite, W_VECTOR_FALLBACK, W_EXPERIENCE_FALLBACK,
    W_PREFERENCE_FALLBACK]
  norm_num [round4, round_eq]

theorem ex_scoreB :
    (score_candidate 0 [] [] [] (compute_skill_overlap exDB 1)
      exCandB).match_score = 0.6499 := by
  simp [score_candidate, compute_skill_overlap, exDB, exCandB,
    compute_skill_overlap_one, compute_experience_fit, ex_pref_eval,
    compute_composite, W_VECTOR_FALLBACK, W_EXPERIENCE_FALLBACK,
    W_PREFERENCE_FALLBACK]
  norm_num [round4, round_eq]

theorem ex_filter :
    (recommend_scored exDB 1).filter
        (fun sj => ¬ (sj.match_score < COMPOSITE_THRESHOLD))
      = [score_candidate 0 [] [] [] (compute_skill_overlap exDB 1) exCandA] := by
  rw [ex_scored]
  simp only [List.filter_cons, List.filter_nil, ex_scoreA, ex_scoreB,
    COMPOSITE_THRESHOLD]
  norm_num

theorem c2_witness :
    score_candidate 0 [] [] [] (compute_skill_overlap exDB 1) exCandA
        ∈ get_recommended_jobs_for_student exDB 1 2 0
      ∧ score_candidate 0 [] [] [] (compute_skill_overlap exDB 1) exCandB
        ∉ get_recommended_jobs_for_student exDB 1 2 0
      ∧ (score_candidate 0 [] [] [] (compute_skill_overlap exDB 1)
          exCandA).match_score = 0.65
      ∧ (score_candidate 0 [] [] [] (compute_skill_overlap exDB 1)
          exCandB).match_score = 0.6499 := by
  have hlen : ((recommend_scored exDB 1).filter
      (fun sj => ¬ (sj.match_score < COMPOSITE_THRESHOLD))).length ≤ 2 := by
    rw [ex_filter]
    simp
  have hiff := fun sj => c2_acceptance_threshold exDB 1 2 (by decide)
    (by decide) (by decide) hlen sj
  refine ⟨?_, ?_, ex_scoreA, ex_scoreB⟩
  · refine (hiff _).mpr ⟨?_, ?_⟩
    · rw [ex_scored]
      exact List.mem_cons_self _ _
    · rw [ex_scoreA]
  · intro hmem
    have hge := ((hiff _).mp hmem).2
    rw [ex_scoreB] at hge
    norm_num at hge

/-- C8: within one Recommend response the output is the in-memory
`[offset : offset + limit]` slice of the stable descending sort of the
threshold-filtered scored candidates; the sorted list is ordered by
composite descending, and candidates of equal composite keep the order in
which they entered scoring (stability, stated via `filter`). -/
theorem c8_sort_stable_paginate (db : DB) (sid limit offset : Nat)
    (h1 : db.has_student_embedding sid = true) :
    get_recommended_jobs_for_student db sid limit offset
        = ((((recommend_scored db sid).filter
            (fun sj => ¬ (sj.match_score < COMPOSITE_THRESHOLD))).mergeSort
              sortLE).drop offset).take limit
      ∧ (((recommend_scored db sid).filter
          (fun sj => ¬ (sj.match_score < COMPOSITE_THRESHOLD))).mergeSort
            sortLE).Pairwise (fun a b => b.match_score ≤ a.match_score)
      ∧ ∀ v : ℚ,
          (((recommend_scored db sid).filter
              (fun sj => ¬ (sj.match_score < COMPOSITE_THRESHOLD))).mergeSort
                sortLE).filter (fun sj => sj.match_score = v)
            = ((recommend_scored db sid).filter
                (fun sj => ¬ (sj.match_score < COMPOSITE_THRESHOLD))).filter
                (fun sj => sj.match_score = v) := by
  refine ⟨?_, ?_, ?_⟩
  · by_cases h2 : db.students sid = none
    · have hsc : recommend_scored db sid = [] := by
        simp [recommend_scored, h2]
      simp [get_recommended_jobs_for_student, h1, h2, hsc]
    · by_cases h3 : db.retrieve sid = []
      · have hsc : recommend_scored db sid = [] := by
          unfold recommend_scored
          cases hs : db.students sid with
          | none => rfl
          | some r =>
            rw [h3]
            simp
        simp [get_recommended_jobs_for_student, h1, h2, h3, hsc]
      · simp [get_recommended_jobs_for_student, h1, h2, h3]
  · have htrans : ∀ a b c : ScoredJob, sortLE a b → sortLE b c → sortLE a c := by
      intro a b c hab hbc
      simp only [sortLE, decide_eq_true_eq] at hab hbc ⊢
      exact le_trans hbc hab
    have htotal : ∀ a b : ScoredJob, sortLE a b || sortLE b a := by
      intro a b
      simp only [sortLE, Bool.or_eq_true, decide_eq_true_eq]
      exact le_total _ _
    have hp := List.sorted_mergeSort htrans htotal
      ((recommend_scored db sid).filter
        (fun sj => ¬ (sj.match_score < COMPOSITE_THRESHOLD)))
    exact hp.imp (by intro a b hab; simpa [sortLE] using hab)
  · intro v
    exact filter_key_mergeSort (fun sj : ScoredJob => sj.match_score) _ v

theorem c8_witness :
    get_recommended_jobs_for_student exDB 1 2 0
      = ((((recommend_scored exDB 1).filter
          (fun sj => ¬ (sj.match_score < COMPOSITE_THRESHOLD))).mergeSort
            sortLE).drop 0).take 2 :=
  (c8_sort_stable_paginate exDB 1 2 0 (by decide)).1

/-- C9: the gap-course lookup returns at most 10 courses, deduplicated by
course id with the kept representative row at least as primary as every
other row of the same course, each annotated with exactly the queried
skills it teaches (published links only), and the empty missing-skill list
yields the empty list. -/
theorem c9_gap_courses (db : DB) (names : List Str) :
    get_gap_courses db [] = []
      ∧ (get_gap_courses db names).length ≤ 10
      ∧ (get_gap_courses db names).Pairwise
          (fun a b => a.course_id ≠ b.course_id)
      ∧ (∀ g ∈ get_gap_courses db names, ∀ n : Str,
          n ∈ g.teaches_skills
            ↔ ∃ j ∈ gap_join_rows db names,
                j.course.course_id = g.course_id ∧ j.skill_name = n)
      ∧ (∀ j ∈ gap_join_rows db names,
          j.skill_name ∈ names ∧ j.course.is_published = true)
      ∧ (∀ r ∈ distinct_on_course []
            ((gap_join_rows db names).mergeSort gapRowLE),
          ∀ j ∈ gap_join_rows db names,
            j.course.course_id = r.course.course_id →
              j.is_primary ≤ r.is_primary) := by
  refine ⟨by simp [get_gap_courses], ?_, ?_, ?_, ?_, ?_⟩
  · by_cases h : names = []
    · simp [get_gap_courses, h]
    · simp only [get_gap_courses, if_neg h, List.length_map, List.length_take]
      exact min_le_left _ _
  · by_cases h : names = []
    · simp [get_gap_courses, h]
    · simp only [get_gap_courses, if_neg h]
      refine List.Pairwise.map _ (fun a b hab => hab) ?_
      exact (distinct_on_course_pairwise [] _).take
  · intro g hg n
    by_cases h : names = []
    · simp [get_gap_courses, h] at hg
    · simp only [get_gap_courses, if_neg h] at hg
      obtain ⟨r, hr, rfl⟩ := List.mem_map.mp hg
      simp only [List.mem_map, List.mem_filter, decide_eq_true_eq]
      constructor
      · rintro ⟨j, ⟨hj, hcid⟩, hname⟩
        exact ⟨j, hj, hcid, hname⟩
      · rintro ⟨j, hj, hcid, hname⟩
        exact ⟨j, ⟨hj, hcid⟩, hname⟩
  · intro j hj
    simp only [gap_join_rows, List.mem_filterMap] at hj
    obtain ⟨cs, hcs, hf⟩ := hj
    split at hf
    case h_1 s c hs hc =>
      split at hf
      case isTrue hcond =>
        cases hf
        exact ⟨hcond.1, hcond.2⟩
      case isFalse hcond =>
        exact absurd hf (by simp)
    case h_2 =>
      exact absurd hf (by simp)
  · intro r hr j hj hcid
    have hpair := List.sorted_mergeSort gapRowLE_trans gapRowLE_total
      (gap_join_rows db names)
    exact distinct_on_course_primary _ hpair [] r hr j
      (List.mem_mergeSort.mpr hj) hcid

theorem ex_join : gap_join_rows exDB [['s', 'q', 'l']] = [exJoinRow] := rfl

theorem c9_witness :
    get_gap_courses exDB [] = []
      ∧ (get_gap_courses exDB [['s', 'q', 'l']]).length ≤ 10
      ∧ exJoinRow.skill_name ∈ [['s', 'q', 'l']]
      ∧ exJoinRow.course.is_published = true
      ∧ exJoinRow.is_primary ≤ exJoinRow.is_primary := by
  have h := c9_gap_courses exDB [['s', 'q', 'l']]
  have hj : exJoinRow ∈ gap_join_rows exDB [['s', 'q', 'l']] := by
    rw [ex_join]
    exact List.mem_cons_self _ _
  have hmem : exJoinRow ∈ distinct_on_course []
      ((gap_join_rows exDB [['s', 'q', 'l']]).mergeSort gapRowLE) := by
    rw [ex_join, List.mergeSort_singleton]
    simp [distinct_on_course]
  have h5 := h.2.2.2.2.1 exJoinRow hj
  have h6 := h.2.2.2.2.2 exJoinRow hmem exJoinRow hj rfl
  exact ⟨h.1, h.2.1, h5.1, h5.2, h6⟩
